import Mathlib

/-!
Verification development for the interactive annotation engine of the
machining_auto repository (src/setting_sheet_auto/).

Shallow embedding conventions:
* Python floats are modelled as exact rationals. No serialization or
  coordinate computation in the modelled code performs rounding, so the
  rational model reproduces the code term-for-term; transcendental float
  functions that the code calls (math.cos, math.sin, sqrt via x ** 0.5)
  are abstracted as function parameters, and the theorems hold for every
  choice of those functions.
* Python class names TextAnnotation, ArrowAnnotation, ShapeAnnotation are
  rendered here as TextAnn, ArrowAnn, ShapeAnn; the field "end" of
  ArrowAnnotation is rendered endP because end is reserved in Lean.
  All other names follow the source.
* Mutation of the shared AnnotationSet is modelled by explicit state
  passing; Python list.remove is List.erase (first occurrence, value
  equality, matching dataclass __eq__).
-/

/-- Normalized (0..1) 2D point, from annotations.Point2D. -/
structure Point2D where
  x : ℚ
  y : ℚ
deriving DecidableEq, Repr

/-- A point in scene (device) coordinates, the Lean image of QPointF. -/
structure ScenePt where
  x : ℚ
  y : ℚ
deriving DecidableEq, Repr

/-- A rectangle in scene coordinates, the Lean image of QRectF
(left, top, width, height; right = left + width, bottom = top + height). -/
structure Rect where
  left : ℚ
  top : ℚ
  width : ℚ
  height : ℚ
deriving DecidableEq, Repr

def Rect.right (r : Rect) : ℚ := r.left + r.width

def Rect.bottom (r : Rect) : ℚ := r.top + r.height

def Rect.centerX (r : Rect) : ℚ := r.left + r.width / 2

def Rect.centerY (r : Rect) : ℚ := r.top + r.height / 2

/-- annotations.AnnotationKind. -/
inductive AnnotationKind where
  | TEXT
  | ARROW
  | SHAPE
deriving DecidableEq, Repr

/-- annotations.ShapeType. -/
inductive ShapeType where
  | RECT
  | TRIANGLE
  | CIRCLE
  | ELLIPSE
  | STAR
  | POLYGON
  | DATUM_L
deriving DecidableEq, Repr

/-- The .name attribute of a ShapeType member, as used by to_dict. -/
def ShapeType.name : ShapeType → String
  | .RECT => "RECT"
  | .TRIANGLE => "TRIANGLE"
  | .CIRCLE => "CIRCLE"
  | .ELLIPSE => "ELLIPSE"
  | .STAR => "STAR"
  | .POLYGON => "POLYGON"
  | .DATUM_L => "DATUM_L"

/-- ShapeType[name] lookup used by ShapeAnnotation.from_dict; none models
the KeyError raised on an unknown name. -/
def ShapeType.ofName : String → Option ShapeType
  | "RECT" => some .RECT
  | "TRIANGLE" => some .TRIANGLE
  | "CIRCLE" => some .CIRCLE
  | "ELLIPSE" => some .ELLIPSE
  | "STAR" => some .STAR
  | "POLYGON" => some .POLYGON
  | "DATUM_L" => some .DATUM_L
  | _ => none

/-- annotations.TextAnnotation (source name TextAnnotation).
kind is the constant AnnotationKind.TEXT, fixed by __post_init__, so it is
not stored as a field. -/
structure TextAnn where
  id : String
  label : String
  visible : Bool
  z_index : Int
  position : Point2D
  text : String
  color : String
  font_size : Int
  parent_id : Option String
deriving DecidableEq, Repr

/-- annotations.ArrowAnnotation (source name ArrowAnnotation).
The source field end is rendered endP. kind is constantly ARROW. -/
structure ArrowAnn where
  id : String
  label : String
  visible : Bool
  z_index : Int
  start : Point2D
  endP : Point2D
  text : String
  color : String
  line_width : ℚ
  head_size : ℚ
  text_size : Int
deriving DecidableEq, Repr

/-- annotations.ShapeAnnotation (source name ShapeAnnotation).
kind is constantly SHAPE. -/
structure ShapeAnn where
  id : String
  label : String
  visible : Bool
  z_index : Int
  shape_type : ShapeType
  points : List Point2D
  stroke_color : String
  fill_color : Option String
  stroke_width : ℚ
deriving DecidableEq, Repr

/-- annotations.AnnotationSet. -/
structure AnnotationSet where
  main_point : Option TextAnn
  texts : List TextAnn
  arrows : List ArrowAnn
  shapes : List ShapeAnn
deriving DecidableEq, Repr

/-- AnnotationSet.add_text ignoring the optional label argument (every
caller in the modelled code omits it), with the fresh uuid passed in as
newId. __post_init__ gives label TEXT, visible True, z_index 0,
parent_id None. -/
def AnnotationSet.add_text (s : AnnotationSet) (newId : String)
    (position : Point2D) (text : String) (color : String)
    (font_size : Int) : AnnotationSet :=
  { s with texts := s.texts ++
      [⟨newId, "TEXT", true, 0, position, text, color, font_size, none⟩] }

/-- AnnotationSet.add_arrow ignoring the optional label argument, with the
fresh uuid passed in as newId. Defaults from the dataclass: head_size
0.02, text_size 30 (the controller does not pass text_size). -/
def AnnotationSet.add_arrow (s : AnnotationSet) (newId : String)
    (start endP : Point2D) (text : String) (color : String)
    (line_width : ℚ) (text_size : Int) : AnnotationSet :=
  { s with arrows := s.arrows ++
      [⟨newId, "ARROW", true, 0, start, endP, text, color, line_width,
        1 / 50, text_size⟩] }

/-- AnnotationSet.add_shape ignoring the optional label argument, with the
fresh uuid passed in as newId. __post_init__ gives label
SHAPE_ + shape_type.name. -/
def AnnotationSet.add_shape (s : AnnotationSet) (newId : String)
    (shape_type : ShapeType) (points : List Point2D)
    (stroke_color : String) (fill_color : Option String)
    (stroke_width : ℚ) : AnnotationSet :=
  { s with shapes := s.shapes ++
      [⟨newId, "SHAPE_" ++ shape_type.name, true, 0, shape_type, points,
        stroke_color, fill_color, stroke_width⟩] }

/-! Serialization (annotations.py to_dict / from_dict).
Each dictionary produced by to_dict always carries every key, so the
dictionary forms are modelled as records with exactly those keys; the
data.get(key, default) calls of from_dict therefore read the stored
value. The nested x/y dictionaries are the PointDict record. -/

/-- The x/y dictionary produced for a Point2D. -/
structure PointDict where
  x : ℚ
  y : ℚ
deriving DecidableEq, Repr

def Point2D.to_dict (p : Point2D) : PointDict := ⟨p.x, p.y⟩

def Point2D.of_dict (d : PointDict) : Point2D := ⟨d.x, d.y⟩

/-- Dictionary form written by TextAnnotation.to_dict. -/
structure TextDict where
  id : String
  kind : String
  label : String
  visible : Bool
  z_index : Int
  position : PointDict
  text : String
  color : String
  font_size : Int
  parent_id : Option String
deriving DecidableEq, Repr

/-- TextAnnotation.to_dict. -/
def TextAnn.to_dict (a : TextAnn) : TextDict :=
  ⟨a.id, "TEXT", a.label, a.visible, a.z_index, a.position.to_dict,
   a.text, a.color, a.font_size, a.parent_id⟩

/-- TextAnnotation.from_dict: builds the annotation from the stored
fields (the kind entry is ignored; __post_init__ resets it). -/
def TextAnn.from_dict (d : TextDict) : TextAnn :=
  ⟨d.id, d.label, d.visible, d.z_index, Point2D.of_dict d.position,
   d.text, d.color, d.font_size, d.parent_id⟩

/-- Dictionary form written by ArrowAnnotation.to_dict. -/
structure ArrowDict where
  id : String
  kind : String
  label : String
  visible : Bool
  z_index : Int
  start : PointDict
  endP : PointDict
  text : String
  color : String
  line_width : ℚ
  head_size : ℚ
  text_size : Int
deriving DecidableEq, Repr

/-- ArrowAnnotation.to_dict. -/
def ArrowAnn.to_dict (a : ArrowAnn) : ArrowDict :=
  ⟨a.id, "ARROW", a.label, a.visible, a.z_index, a.start.to_dict,
   a.endP.to_dict, a.text, a.color, a.line_width, a.head_size,
   a.text_size⟩

/-- ArrowAnnotation.from_dict. -/
def ArrowAnn.from_dict (d : ArrowDict) : ArrowAnn :=
  ⟨d.id, d.label, d.visible, d.z_index, Point2D.of_dict d.start,
   Point2D.of_dict d.endP, d.text, d.color, d.line_width, d.head_size,
   d.text_size⟩

/-- Dictionary form written by ShapeAnnotation.to_dict. -/
structure ShapeDict where
  id : String
  kind : String
  label : String
  visible : Bool
  z_index : Int
  shape_type : String
  points : List PointDict
  stroke_color : String
  fill_color : Option String
  stroke_width : ℚ
deriving DecidableEq, Repr

/-- ShapeAnnotation.to_dict. -/
def ShapeAnn.to_dict (a : ShapeAnn) : ShapeDict :=
  ⟨a.id, "SHAPE", a.label, a.visible, a.z_index, a.shape_type.name,
   a.points.map Point2D.to_dict, a.stroke_color, a.fill_color,
   a.stroke_width⟩

/-- ShapeAnnotation.from_dict; none models the KeyError raised by
ShapeType[...] on an unknown shape_type name. -/
def ShapeAnn.from_dict (d : ShapeDict) : Option ShapeAnn :=
  (ShapeType.ofName d.shape_type).map fun st =>
    ⟨d.id, d.label, d.visible, d.z_index, st,
     d.points.map Point2D.of_dict, d.stroke_color, d.fill_color,
     d.stroke_width⟩

/-- Dictionary form written by AnnotationSet.to_dict. -/
structure SetDict where
  main_point : Option TextDict
  texts : List TextDict
  arrows : List ArrowDict
  shapes : List ShapeDict
deriving DecidableEq, Repr

/-- AnnotationSet.to_dict. A TextAnnotation object is always truthy, so
if self.main_point is the Option match. -/
def AnnotationSet.to_dict (s : AnnotationSet) : SetDict :=
  ⟨s.main_point.map TextAnn.to_dict, s.texts.map TextAnn.to_dict,
   s.arrows.map ArrowAnn.to_dict, s.shapes.map ShapeAnn.to_dict⟩

/-- Exception-propagating traversal for the shape-parsing loop of
AnnotationSet.from_dict. -/
def mapOpt (f : α → Option β) : List α → Option (List β)
  | [] => some []
  | a :: l =>
    match f a, mapOpt f l with
    | some b, some bs => some (b :: bs)
    | _, _ => none

/-- AnnotationSet.from_dict; a to_dict-produced main_point dictionary is
a non-empty dict, hence truthy exactly when present. none propagates the
exception a bad shape_type name would raise. -/
def AnnotationSet.from_dict (d : SetDict) : Option AnnotationSet :=
  (mapOpt ShapeAnn.from_dict d.shapes).map fun shs =>
    ⟨d.main_point.map TextAnn.from_dict, d.texts.map TextAnn.from_dict,
     d.arrows.map ArrowAnn.from_dict, shs⟩

/-! Round-trip lemmas for C1. -/

theorem shapeType_ofName_name (t : ShapeType) :
    ShapeType.ofName t.name = some t := by
  cases t <;> rfl

theorem point_roundtrip (p : Point2D) :
    Point2D.of_dict (Point2D.to_dict p) = p := rfl

theorem textAnn_roundtrip (a : TextAnn) :
    TextAnn.from_dict (TextAnn.to_dict a) = a := by
  cases a
  rfl

theorem arrowAnn_roundtrip (a : ArrowAnn) :
    ArrowAnn.from_dict (ArrowAnn.to_dict a) = a := by
  cases a
  rfl

theorem shapeAnn_roundtrip (a : ShapeAnn) :
    ShapeAnn.from_dict (ShapeAnn.to_dict a) = some a := by
  cases a with
  | mk id label visible z shape_type points sc fc sw =>
    simp [ShapeAnn.from_dict, ShapeAnn.to_dict, shapeType_ofName_name,
      Function.comp_def, point_roundtrip]

theorem shapes_mapOpt_roundtrip (l : List ShapeAnn) :
    mapOpt ShapeAnn.from_dict (l.map ShapeAnn.to_dict) = some l := by
  induction l with
  | nil => rfl
  | cons a l ih =>
    simp [mapOpt, ih, shapeAnn_roundtrip]

/-- Claim C1: for every AnnotationSet x (including the empty set, a set
with a main point, and sets mixing Text, Arrow and Shape annotations with
parent_id links), AnnotationSet.from_dict (x.to_dict) reproduces x
field-for-field: every id, parent_id, z_index and every numeric and
string field of every annotation kind. -/
theorem C1_serialization_roundtrip (s : AnnotationSet) :
    AnnotationSet.from_dict (AnnotationSet.to_dict s) = some s := by
  cases s with
  | mk mp texts arrows shapes =>
    simp [AnnotationSet.from_dict, AnnotationSet.to_dict,
      shapes_mapOpt_roundtrip, Function.comp_def, textAnn_roundtrip,
      arrowAnn_roundtrip]

/-! Scene coordinate mapping (graphics_annotations.AnnotationScene).
The scene state that the two mappings read is the bounding rectangle of
the background pixmap item; none models no image loaded. Loading or
resizing the image only replaces that rectangle, so quantifying over the
current rectangle covers any sequence of image loads and resizes. -/

/-- AnnotationScene._norm_to_scene: normalized point to scene point;
returns QPointF(0, 0) when no image is loaded. -/
def norm_to_scene (img : Option Rect) (p : Point2D) : ScenePt :=
  match img with
  | none => ⟨0, 0⟩
  | some rect => ⟨rect.left + p.x * rect.width, rect.top + p.y * rect.height⟩

/-- AnnotationScene.scene_to_normalized: scene point to normalized point;
returns Point2D(0.0, 0.0) when no image is loaded or the image rectangle
has non-positive width or height. -/
def scene_to_normalized (img : Option Rect) (pt : ScenePt) : Point2D :=
  match img with
  | none => ⟨0, 0⟩
  | some rect =>
    if rect.width ≤ 0 ∨ rect.height ≤ 0 then ⟨0, 0⟩
    else ⟨(pt.x - rect.left) / rect.width, (pt.y - rect.top) / rect.height⟩

/-- Claim C2: with a background image of positive width and height
loaded (whatever sequence of loads and resizes produced it), the two
coordinate mappings are mutually inverse on every normalized point:
scene_to_normalized (norm_to_scene p) recovers p exactly in the rational
model, hence within the 1e-6 tolerance of the spec. -/
theorem C2_coordinate_roundtrip (r : Rect) (p : Point2D)
    (hw : 0 < r.width) (hh : 0 < r.height) :
    scene_to_normalized (some r) (norm_to_scene (some r) p) = p := by
  cases p with
  | mk x y =>
    simp only [norm_to_scene, scene_to_normalized]
    rw [if_neg]
    · field_simp
    · push_neg
      exact ⟨hw, hh⟩

theorem C2_coordinate_roundtrip_witness :
    (0 : ℚ) < 1000 ∧ (0 : ℚ) < 800 ∧
      scene_to_normalized (some ⟨0, 0, 1000, 800⟩)
        (norm_to_scene (some ⟨0, 0, 1000, 800⟩) ⟨1 / 10, 3 / 10⟩) =
        ⟨1 / 10, 3 / 10⟩ :=
  ⟨by norm_num, by norm_num,
   C2_coordinate_roundtrip ⟨0, 0, 1000, 800⟩ ⟨1 / 10, 3 / 10⟩
     (by norm_num) (by norm_num)⟩

/-- Claim C10: the coordinate mappings are total functions that signal
degenerate states silently: with no image loaded norm_to_scene returns
the scene origin and scene_to_normalized returns Point2D(0, 0); with an
image rectangle of non-positive width or height scene_to_normalized also
returns Point2D(0, 0); and in the no-image state the round trip of claim
C2 fails, e.g. at the normalized point (1/2, 1/2). -/
theorem C10_degenerate_mappings (p : Point2D) (pt : ScenePt) (r : Rect) :
    norm_to_scene none p = ⟨0, 0⟩ ∧
      scene_to_normalized none pt = ⟨0, 0⟩ ∧
      ((r.width ≤ 0 ∨ r.height ≤ 0) →
        scene_to_normalized (some r) pt = ⟨0, 0⟩) ∧
      scene_to_normalized none (norm_to_scene none ⟨1 / 2, 1 / 2⟩) ≠
        ⟨1 / 2, 1 / 2⟩ := by
  refine ⟨rfl, rfl, fun h => ?_, ?_⟩
  · simp [scene_to_normalized, h]
  · norm_num [scene_to_normalized, norm_to_scene, Point2D.mk.injEq]

theorem C10_degenerate_mappings_witness :
    ((⟨0, 0, -5, 7⟩ : Rect).width ≤ 0 ∨ (⟨0, 0, -5, 7⟩ : Rect).height ≤ 0) ∧
      scene_to_normalized (some ⟨0, 0, -5, 7⟩) ⟨3, 4⟩ = ⟨0, 0⟩ :=
  ⟨by norm_num,
   (C10_degenerate_mappings ⟨1, 1⟩ ⟨3, 4⟩ ⟨0, 0, -5, 7⟩).2.2.1
     (by norm_num)⟩

/-! Annotation controller (annotation_controller.AnnotationController) and
the snap helper of the scene. Floating transcendentals (math.cos,
math.sin, the ** 0.5 square root) are abstracted into a FloatOracle; the
theorems below hold for every oracle. Fresh uuid strings are passed in as
arguments. The modal QInputDialog.getText outcome is an Option String:
none for Cancel, some s for Ok with entered text s (Python str.strip is
String.trim). The bounding rectangle that the scene computed for the
drawn text item of a given annotation id is supplied by a textRects
function. -/

/-- Abstract stand-ins for float transcendentals: cosine and sine taken
at a whole number of degrees (math.cos(math.radians d)), and square
root. -/
structure FloatOracle where
  cosDeg : Int → ℚ
  sinDeg : Int → ℚ
  sqrt : ℚ → ℚ

/-- Python int() applied to a float: truncation toward zero. -/
def intTrunc (q : ℚ) : Int := if 0 ≤ q then ⌊q⌋ else ⌈q⌉

/-- annotation_tools.ToolKind. -/
inductive ToolKind where
  | SELECT
  | SHAPE
  | ARROW
  | TEXT
deriving DecidableEq, Repr

/-- annotation_tools.AnnotationToolState. -/
structure AnnotationToolState where
  active_tool : ToolKind
  shape_type : ShapeType
  stroke_width : ℚ
  stroke_color : String
  fill_color : Option String
  arrow_color : String
  text_color : String
  text_size : ℚ
deriving DecidableEq, Repr

/-- Replace the first arrow with the given id (the object the source
finds by its id-equality scan and then mutates in place). -/
def updateFirstArrow (pid : String) (f : ArrowAnn → ArrowAnn) :
    List ArrowAnn → List ArrowAnn
  | [] => []
  | a :: l =>
    if a.id = pid then f a :: l else a :: updateFirstArrow pid f l

/-- The edge_point_on_rect_towards helper defined inside
snap_linked_arrow_tails_to_text_edges (and duplicated as
AnnotationScene._edge_point_on_rect_towards): walk from the rect center
toward the given point until the rect outline, then pad outward.
In the corner where both direction components are exactly 1e-9 in
magnitude the float code multiplies by infinity; that branch is
unreachable from the guarded callers and is modelled as the center. -/
def edge_point_on_rect_towards (sqrt : ℚ → ℚ) (rect : Rect)
    (toward : ScenePt) (pad_px : ℚ) : ScenePt :=
  let c : ScenePt := ⟨rect.centerX, rect.centerY⟩
  let dx := toward.x - c.x
  let dy := toward.y - c.y
  if |dx| < 1 / 1000000000 ∧ |dy| < 1 / 1000000000 then c
  else
    let half_w := rect.width / 2
    let half_h := rect.height / 2
    let s :=
      if |dx| > 1 / 1000000000 ∧ |dy| > 1 / 1000000000 then
        min (half_w / |dx|) (half_h / |dy|)
      else if |dx| > 1 / 1000000000 then half_w / |dx|
      else if |dy| > 1 / 1000000000 then half_h / |dy|
      else 0
    let p : ScenePt := ⟨c.x + dx * s, c.y + dy * s⟩
    let length0 := sqrt (dx * dx + dy * dy)
    let length := if length0 = 0 then 1 else length0
    ⟨p.x + dx / length * pad_px, p.y + dy / length * pad_px⟩

/-- The text annotations for which _redraw_annotations created text
items, in draw order: the main point if visible, then the visible texts. -/
def visibleTextAnns (s : AnnotationSet) : List TextAnn :=
  (match s.main_point with
   | some t => if t.visible then [t] else []
   | none => []) ++ s.texts.filter (fun t => t.visible)

/-- One iteration of the loop of
AnnotationScene.snap_linked_arrow_tails_to_text_edges: a drawn text item
with a truthy parent_id that resolves to an arrow (first id match) sets
that arrow end to the padded outline point of the text rect toward the
arrow start. -/
def snapStep (sqrt : ℚ → ℚ) (rect : Rect) (textRects : String → Rect)
    (acc : List ArrowAnn) (t : TextAnn) : List ArrowAnn :=
  match t.parent_id with
  | none => acc
  | some pid =>
    if pid = "" then acc
    else
      match acc.find? (fun a => a.id == pid) with
      | none => acc
      | some par =>
        let attach := edge_point_on_rect_towards sqrt (textRects t.id)
          (norm_to_scene (some rect) par.start) 3
        updateFirstArrow pid
          (fun a =>
            { a with endP := scene_to_normalized (some rect) attach })
          acc

/-- AnnotationScene.snap_linked_arrow_tails_to_text_edges: folds snapStep
over the drawn text items. The trailing conditional redraw does not touch
the model. -/
def snap_linked_arrow_tails_to_text_edges (sqrt : ℚ → ℚ)
    (img : Option Rect) (textRects : String → Rect)
    (s : AnnotationSet) : AnnotationSet :=
  match img with
  | none => s
  | some rect =>
    { s with arrows :=
        (visibleTextAnns s).foldl (snapStep sqrt rect textRects) s.arrows }

/-- AnnotationController._create_text_at: Cancel or whitespace-only text
creates nothing; otherwise a text annotation is added at the click
position with the tool style (font size via Python int()). -/
def create_text_at (ts : AnnotationToolState) (p : Point2D)
    (dialog : Option String) (newId : String) (s : AnnotationSet) :
    AnnotationSet :=
  match dialog with
  | none => s
  | some text =>
    let value := text.trim
    if value = "" then s
    else s.add_text newId p value ts.text_color (intTrunc ts.text_size)

/-- AnnotationController._create_shape_from_drag. DATUM_L is built from
the single point p1; box kinds store the two bbox corners; TRIANGLE,
POLYGON and STAR derive their vertices from the bbox; the final else of
the Python chain (bbox corners) is unreachable because DATUM_L was
handled first. -/
def create_shape_from_drag (ora : FloatOracle)
    (ts : AnnotationToolState) (p1 p2 : Point2D) (newId : String)
    (s : AnnotationSet) : AnnotationSet :=
  if ts.shape_type = ShapeType.DATUM_L then
    s.add_shape newId ShapeType.DATUM_L [p1] ts.stroke_color none
      ts.stroke_width
  else
    let left := min p1.x p2.x
    let right := max p1.x p2.x
    let top := min p1.y p2.y
    let bottom := max p1.y p2.y
    let cx := (left + right) / 2
    let cy := (top + bottom) / 2
    let w := right - left
    let h := bottom - top
    let r := min w h / 2
    let points : List Point2D :=
      match ts.shape_type with
      | .RECT | .CIRCLE | .ELLIPSE => [⟨left, top⟩, ⟨right, bottom⟩]
      | .TRIANGLE => [⟨cx, top⟩, ⟨right, bottom⟩, ⟨left, bottom⟩]
      | .POLYGON => [⟨cx, top⟩, ⟨right, cy⟩, ⟨cx, bottom⟩, ⟨left, cy⟩]
      | .STAR =>
        (List.range 10).map fun i =>
          let angle : Int := -90 + 36 * (i : Int)
          let radius := if i % 2 = 0 then r else r * (2 / 5)
          ⟨cx + radius * ora.cosDeg angle, cy + radius * ora.sinDeg angle⟩
      | .DATUM_L => [⟨left, top⟩, ⟨right, bottom⟩]
    s.add_shape newId ts.shape_type points ts.stroke_color ts.fill_color
      ts.stroke_width

/-- AnnotationController._create_arrow_from_drag: the arrow is created
first; Cancel or whitespace-only label removes it again (list remove by
value equality); otherwise a text annotation is appended and immediately
given parent_id = arrow id (add_text followed by the parent_id
assignment), and the scene snaps the arrow tail onto the text outline. -/
def create_arrow_from_drag (sqrt : ℚ → ℚ) (ts : AnnotationToolState)
    (img : Option Rect) (p1 p2 : Point2D) (dialog : Option String)
    (arrowId textId : String) (textRects : String → Rect)
    (s : AnnotationSet) : AnnotationSet :=
  let arrow : ArrowAnn :=
    ⟨arrowId, "ARROW", true, 0, p1, p2, "", ts.arrow_color,
     ts.stroke_width, 1 / 50, 30⟩
  let s1 := { s with arrows := s.arrows ++ [arrow] }
  let rollback := { s1 with arrows :=
    if arrow ∈ s1.arrows then s1.arrows.erase arrow else s1.arrows }
  match dialog with
  | none => rollback
  | some text =>
    let value := text.trim
    if value = "" then rollback
    else
      let s2 := { s1 with texts := s1.texts ++
        [⟨textId, "TEXT", true, 0, p2, value, ts.text_color,
          intTrunc ts.text_size, some arrowId⟩] }
      snap_linked_arrow_tails_to_text_edges sqrt img textRects s2

/-- AnnotationController.handle_mouse_release for a completed left-button
gesture that started while drawing was active (press recorded startPos;
endPos is the release position already clamped to the scene rect).
MIN_SHAPE_SIZE_PX = 12.0; the arrow and shape drag gate uses the
Manhattan length with threshold 3. -/
def handle_mouse_release (ora : FloatOracle) (ts : AnnotationToolState)
    (img : Option Rect) (startPos endPos : ScenePt)
    (dialog : Option String) (shapeId arrowId textId : String)
    (textRects : String → Rect) (s : AnnotationSet) : AnnotationSet :=
  let dist := |endPos.x - startPos.x| + |endPos.y - startPos.y|
  let dx := |endPos.x - startPos.x|
  let dy := |endPos.y - startPos.y|
  if ts.active_tool = ToolKind.SHAPE ∧ (dx < 12 ∨ dy < 12) then s
  else if ts.active_tool = ToolKind.TEXT then
    create_text_at ts (scene_to_normalized img endPos) dialog textId s
  else if dist < 3 then s
  else
    let p1 := scene_to_normalized img startPos
    let p2 := scene_to_normalized img endPos
    if ts.active_tool = ToolKind.SHAPE then
      create_shape_from_drag ora ts p1 p2 shapeId s
    else if ts.active_tool = ToolKind.ARROW then
      create_arrow_from_drag ora.sqrt ts img p1 p2 dialog arrowId textId
        textRects s
    else s

/-! Structural lemmas about the snap pass, used by claim C5. -/

theorem updateFirstArrow_map_id (pid : String) (f : ArrowAnn → ArrowAnn)
    (hf : ∀ a, (f a).id = a.id) (l : List ArrowAnn) :
    (updateFirstArrow pid f l).map (fun a => a.id) =
      l.map (fun a => a.id) := by
  induction l with
  | nil => rfl
  | cons a l ih =>
    simp only [updateFirstArrow]
    split
    · simp [hf]
    · simp [ih]

theorem snapStep_map_id (sqrt : ℚ → ℚ) (rect : Rect)
    (textRects : String → Rect) (acc : List ArrowAnn) (t : TextAnn) :
    (snapStep sqrt rect textRects acc t).map (fun a => a.id) =
      acc.map (fun a => a.id) := by
  simp only [snapStep]
  split
  · rfl
  · split
    · rfl
    · split
      · rfl
      · apply updateFirstArrow_map_id
        intro a
        rfl

theorem snap_foldl_map_id (sqrt : ℚ → ℚ) (rect : Rect)
    (textRects : String → Rect) (l : List TextAnn) :
    ∀ acc : List ArrowAnn,
      ((l.foldl (snapStep sqrt rect textRects) acc).map (fun a => a.id)) =
        acc.map (fun a => a.id) := by
  induction l with
  | nil => intro acc; rfl
  | cons t l ih =>
    intro acc
    simp only [List.foldl_cons]
    rw [ih, snapStep_map_id]

theorem snap_arrows_map_id (sqrt : ℚ → ℚ) (img : Option Rect)
    (textRects : String → Rect) (s : AnnotationSet) :
    ((snap_linked_arrow_tails_to_text_edges sqrt img textRects s).arrows).map
        (fun a => a.id) =
      s.arrows.map (fun a => a.id) := by
  cases img with
  | none => rfl
  | some rect => exact snap_foldl_map_id sqrt rect textRects _ s.arrows

theorem snap_texts_eq (sqrt : ℚ → ℚ) (img : Option Rect)
    (textRects : String → Rect) (s : AnnotationSet) :
    (snap_linked_arrow_tails_to_text_edges sqrt img textRects s).texts =
      s.texts := by
  cases img <;> rfl

/-- Rolling back the just-appended element of a list (Python
list.remove by value) restores the original list when no earlier
element equals it. -/
theorem erase_append_singleton (a : ArrowAnn) (l : List ArrowAnn)
    (h : a ∉ l) : (l ++ [a]).erase a = l := by
  rw [List.erase_append_right _ (by simpa using h)]
  simp

/-- The full rollback expression of _create_arrow_from_drag (membership
test, then list.remove) restores the original arrows list. -/
theorem rollback_arrows (l : List ArrowAnn) (a : ArrowAnn)
    (h : a ∉ l) :
    (if a ∈ l ++ [a] then (l ++ [a]).erase a else l ++ [a]) = l := by
  rw [if_pos (List.mem_append_right _ (List.mem_singleton_self _))]
  exact erase_append_singleton a l h

/-- Claim C5: for an arrow-tool gesture past the drag gate, Cancel or
whitespace-only label input rolls the freshly created arrow back, leaving
the arrows list (and the texts list) exactly as before; non-empty input
adds exactly one arrow (the fresh id, at the end) and exactly one text
annotation whose parent_id is that arrow id. -/
theorem C5_arrow_label_rollback (ora : FloatOracle)
    (ts : AnnotationToolState) (img : Option Rect)
    (startPos endPos : ScenePt) (dialog : Option String)
    (shapeId arrowId textId : String) (textRects : String → Rect)
    (s : AnnotationSet)
    (htool : ts.active_tool = ToolKind.ARROW)
    (hdist : 3 ≤ |endPos.x - startPos.x| + |endPos.y - startPos.y|)
    (hfresh : ∀ a ∈ s.arrows, a.id ≠ arrowId) :
    ((dialog = none ∨ ∃ t, dialog = some t ∧ t.trim = "") →
      (handle_mouse_release ora ts img startPos endPos dialog shapeId
          arrowId textId textRects s).arrows = s.arrows ∧
      (handle_mouse_release ora ts img startPos endPos dialog shapeId
          arrowId textId textRects s).texts = s.texts) ∧
    (∀ t, dialog = some t → t.trim ≠ "" →
      (handle_mouse_release ora ts img startPos endPos dialog shapeId
          arrowId textId textRects s).arrows.map (fun a => a.id) =
        s.arrows.map (fun a => a.id) ++ [arrowId] ∧
      (handle_mouse_release ora ts img startPos endPos dialog shapeId
          arrowId textId textRects s).texts = s.texts ++
        [⟨textId, "TEXT", true, 0, scene_to_normalized img endPos, t.trim,
          ts.text_color, intTrunc ts.text_size, some arrowId⟩]) := by
  have h3 : ¬(|endPos.x - startPos.x| + |endPos.y - startPos.y| < 3) :=
    not_lt.mpr hdist
  have hstep : handle_mouse_release ora ts img startPos endPos dialog
      shapeId arrowId textId textRects s =
      create_arrow_from_drag ora.sqrt ts img
        (scene_to_normalized img startPos)
        (scene_to_normalized img endPos) dialog arrowId textId textRects
        s := by
    simp [handle_mouse_release, htool, h3]
  have hmem :
      (⟨arrowId, "ARROW", true, 0, scene_to_normalized img startPos,
        scene_to_normalized img endPos, "", ts.arrow_color,
        ts.stroke_width, 1 / 50, 30⟩ : ArrowAnn) ∉ s.arrows := by
    intro hmem
    exact hfresh _ hmem rfl
  have herase := erase_append_singleton _ s.arrows hmem
  constructor
  · rintro (rfl | ⟨t, rfl, htrim⟩)
    · rw [hstep]
      simp only [create_arrow_from_drag]
      constructor
      · exact rollback_arrows s.arrows _ hmem
      · trivial
    · rw [hstep]
      simp only [create_arrow_from_drag, htrim]
      constructor
      · exact rollback_arrows s.arrows _ hmem
      · trivial
  · rintro t rfl hne
    rw [hstep]
    simp only [create_arrow_from_drag, if_neg hne]
    refine ⟨?_, ?_⟩
    · rw [snap_arrows_map_id]
      simp
    · rw [snap_texts_eq]

theorem C5_arrow_label_rollback_witness :
    ((⟨.ARROW, .RECT, 5, "Yellow", none, "Red", "Black",
        40⟩ : AnnotationToolState).active_tool = ToolKind.ARROW) ∧
      (3 : ℚ) ≤ |(30 : ℚ) - 0| + |(40 : ℚ) - 0| ∧
      ((handle_mouse_release ⟨fun _ => 0, fun _ => 0, fun _ => 0⟩
          ⟨.ARROW, .RECT, 5, "Yellow", none, "Red", "Black", 40⟩
          (some ⟨0, 0, 100, 100⟩) ⟨0, 0⟩ ⟨30, 40⟩ none "S1" "A1" "T1"
          (fun _ => ⟨0, 0, 10, 10⟩)
          ⟨none, [], [], []⟩).arrows = [] ∧
        (handle_mouse_release ⟨fun _ => 0, fun _ => 0, fun _ => 0⟩
          ⟨.ARROW, .RECT, 5, "Yellow", none, "Red", "Black", 40⟩
          (some ⟨0, 0, 100, 100⟩) ⟨0, 0⟩ ⟨30, 40⟩ none "S1" "A1" "T1"
          (fun _ => ⟨0, 0, 10, 10⟩)
          ⟨none, [], [], []⟩).texts = []) :=
  ⟨rfl, by norm_num,
   (C5_arrow_label_rollback ⟨fun _ => 0, fun _ => 0, fun _ => 0⟩
      ⟨.ARROW, .RECT, 5, "Yellow", none, "Red", "Black", 40⟩
      (some ⟨0, 0, 100, 100⟩) ⟨0, 0⟩ ⟨30, 40⟩ none "S1" "A1" "T1"
      (fun _ => ⟨0, 0, 10, 10⟩) ⟨none, [], [], []⟩ rfl (by norm_num)
      (by simp)).1 (Or.inl rfl)⟩

/-- Claim C3 counterexample: with the SHAPE tool active and shape kind
DATUM_L, the completed gesture (0,0) to (2,2) creates no annotation at
all, because handle_mouse_release rejects every shape-tool drag whose
width or height is under MIN_SHAPE_SIZE_PX = 12 before the DATUM_L
special case is reached; the claim promised a one-point DATUM_L shape
for every completed gesture regardless of drag distance. -/
theorem C3_datum_counterexample :
    (handle_mouse_release ⟨fun _ => 0, fun _ => 0, fun _ => 0⟩
        ⟨ToolKind.SHAPE, ShapeType.DATUM_L, 5, "Yellow", none, "Red",
          "Black", 40⟩
        (some ⟨0, 0, 100, 100⟩) ⟨0, 0⟩ ⟨2, 2⟩ none "S1" "A1" "T1"
        (fun _ => ⟨0, 0, 10, 10⟩) ⟨none, [], [], []⟩).shapes = [] := by
  norm_num [handle_mouse_release]

/-- Claim C3 as amended: whenever the SHAPE tool is active with shape
kind DATUM_L and the drag passes the minimum-size gate (width and height
of at least MIN_SHAPE_SIZE_PX = 12 pixels), the gesture creates exactly
one DATUM_L ShapeAnnotation holding exactly one control point, the
normalized down position, regardless of any further drag geometry;
below the gate nothing is created. -/
theorem C3_datum_single_point (ora : FloatOracle)
    (ts : AnnotationToolState) (img : Option Rect)
    (startPos endPos : ScenePt) (dialog : Option String)
    (shapeId arrowId textId : String) (textRects : String → Rect)
    (s : AnnotationSet)
    (htool : ts.active_tool = ToolKind.SHAPE)
    (hkind : ts.shape_type = ShapeType.DATUM_L)
    (hdx : 12 ≤ |endPos.x - startPos.x|)
    (hdy : 12 ≤ |endPos.y - startPos.y|) :
    handle_mouse_release ora ts img startPos endPos dialog shapeId
        arrowId textId textRects s =
      { s with shapes := s.shapes ++
          [⟨shapeId, "SHAPE_DATUM_L", true, 0, ShapeType.DATUM_L,
            [scene_to_normalized img startPos], ts.stroke_color, none,
            ts.stroke_width⟩] } := by
  have h1 : ¬(|endPos.x - startPos.x| < 12 ∨ |endPos.y - startPos.y| < 12) := by
    push_neg
    exact ⟨hdx, hdy⟩
  have h3 : ¬(|endPos.x - startPos.x| + |endPos.y - startPos.y| < 3) := by
    have := abs_nonneg (endPos.y - startPos.y)
    push_neg
    linarith
  simp [handle_mouse_release, htool, h1, h3, create_shape_from_drag,
    hkind, AnnotationSet.add_shape, ShapeType.name]

theorem C3_datum_single_point_witness :
    ((⟨.SHAPE, .DATUM_L, 5, "Yellow", none, "Red", "Black",
        40⟩ : AnnotationToolState).active_tool = ToolKind.SHAPE) ∧
      (12 : ℚ) ≤ |(20 : ℚ) - 0| ∧ (12 : ℚ) ≤ |(15 : ℚ) - 0| ∧
      handle_mouse_release ⟨fun _ => 0, fun _ => 0, fun _ => 0⟩
          ⟨.SHAPE, .DATUM_L, 5, "Yellow", none, "Red", "Black", 40⟩
          (some ⟨0, 0, 100, 100⟩) ⟨0, 0⟩ ⟨20, 15⟩ none "S1" "A1" "T1"
          (fun _ => ⟨0, 0, 10, 10⟩) ⟨none, [], [], []⟩ =
        ⟨none, [], [],
          [⟨"S1", "SHAPE_DATUM_L", true, 0, ShapeType.DATUM_L,
            [scene_to_normalized (some ⟨0, 0, 100, 100⟩) ⟨0, 0⟩],
            "Yellow", none, 5⟩]⟩ :=
  ⟨rfl, by norm_num, by norm_num,
   C3_datum_single_point ⟨fun _ => 0, fun _ => 0, fun _ => 0⟩
     ⟨.SHAPE, .DATUM_L, 5, "Yellow", none, "Red", "Black", 40⟩
     (some ⟨0, 0, 100, 100⟩) ⟨0, 0⟩ ⟨20, 15⟩ none "S1" "A1" "T1"
     (fun _ => ⟨0, 0, 10, 10⟩) ⟨none, [], [], []⟩ rfl rfl
     (by norm_num) (by norm_num)⟩

/-- Claim C8: degenerate creations are rejected before entering the
model: a shape-tool gesture (any non-DATUM_L kind, as the claim
quantifies) whose drag width or height is under the fixed 12-pixel
minimum adds no annotation, and an arrow-tool gesture whose Manhattan
drag distance is under the fixed threshold 3 adds no annotation; in
both cases the AnnotationSet is returned unchanged. -/
theorem C8_degenerate_rejection (ora : FloatOracle)
    (ts : AnnotationToolState) (img : Option Rect)
    (startPos endPos : ScenePt) (dialog : Option String)
    (shapeId arrowId textId : String) (textRects : String → Rect)
    (s : AnnotationSet) :
    (ts.active_tool = ToolKind.SHAPE → ts.shape_type ≠ ShapeType.DATUM_L →
      (|endPos.x - startPos.x| < 12 ∨ |endPos.y - startPos.y| < 12) →
      handle_mouse_release ora ts img startPos endPos dialog shapeId
        arrowId textId textRects s = s) ∧
    (ts.active_tool = ToolKind.ARROW →
      |endPos.x - startPos.x| + |endPos.y - startPos.y| < 3 →
      handle_mouse_release ora ts img startPos endPos dialog shapeId
        arrowId textId textRects s = s) := by
  constructor
  · intro h1 _ h3
    simp [handle_mouse_release, h1, h3]
  · intro h1 h2
    simp [handle_mouse_release, h1, h2]

theorem C8_degenerate_rejection_witness :
    (handle_mouse_release ⟨fun _ => 0, fun _ => 0, fun _ => 0⟩
        ⟨.SHAPE, .RECT, 5, "Yellow", none, "Red", "Black", 40⟩
        (some ⟨0, 0, 100, 100⟩) ⟨0, 0⟩ ⟨2, 2⟩ none "S1" "A1" "T1"
        (fun _ => ⟨0, 0, 10, 10⟩) ⟨none, [], [], []⟩ =
      ⟨none, [], [], []⟩) ∧
    (handle_mouse_release ⟨fun _ => 0, fun _ => 0, fun _ => 0⟩
        ⟨.ARROW, .RECT, 5, "Yellow", none, "Red", "Black", 40⟩
        (some ⟨0, 0, 100, 100⟩) ⟨0, 0⟩ ⟨1, 1⟩ none "S1" "A1" "T1"
        (fun _ => ⟨0, 0, 10, 10⟩) ⟨none, [], [], []⟩ =
      ⟨none, [], [], []⟩) :=
  ⟨(C8_degenerate_rejection ⟨fun _ => 0, fun _ => 0, fun _ => 0⟩
      ⟨.SHAPE, .RECT, 5, "Yellow", none, "Red", "Black", 40⟩
      (some ⟨0, 0, 100, 100⟩) ⟨0, 0⟩ ⟨2, 2⟩ none "S1" "A1" "T1"
      (fun _ => ⟨0, 0, 10, 10⟩) ⟨none, [], [], []⟩).1 rfl
      (by simp) (by norm_num),
   (C8_degenerate_rejection ⟨fun _ => 0, fun _ => 0, fun _ => 0⟩
      ⟨.ARROW, .RECT, 5, "Yellow", none, "Red", "Black", 40⟩
      (some ⟨0, 0, 100, 100⟩) ⟨0, 0⟩ ⟨1, 1⟩ none "S1" "A1" "T1"
      (fun _ => ⟨0, 0, 10, 10⟩) ⟨none, [], [], []⟩).2 rfl
      (by norm_num)⟩

/-! Deletion (AnnotationScene.delete_selected_annotations). A selected
interactive item carries a reference to its annotation; the selection is
therefore modelled as the list of referenced annotations (Python
equality is dataclass field equality). -/

/-- An annotation reference held by a selected graphics item. -/
inductive AnnRef where
  | text : TextAnn → AnnRef
  | arrow : ArrowAnn → AnnRef
  | shape : ShapeAnn → AnnRef
deriving DecidableEq, Repr

/-- The duplicate-free collection loop: ann is appended unless an equal
annotation was already collected. -/
def collectToDelete (sel : List AnnRef) : List AnnRef :=
  sel.foldl (fun acc a => if a ∈ acc then acc else acc ++ [a]) []

/-- Deleting one collected annotation: a text removes only itself; a
shape or arrow removes itself and then filters out every text whose
parent_id equals its id (the list-comprehension plus remove loop of the
source removes exactly those texts). -/
def deleteOne (s : AnnotationSet) : AnnRef → AnnotationSet
  | .text t =>
    { s with texts := if t ∈ s.texts then s.texts.erase t else s.texts }
  | .shape sh =>
    let s1 := { s with shapes :=
      if sh ∈ s.shapes then s.shapes.erase sh else s.shapes }
    { s1 with texts :=
        s1.texts.filter (fun t => ¬(t.parent_id = some sh.id)) }
  | .arrow a =>
    let s1 := { s with arrows :=
      if a ∈ s.arrows then s.arrows.erase a else s.arrows }
    { s1 with texts :=
        s1.texts.filter (fun t => ¬(t.parent_id = some a.id)) }

/-- AnnotationScene.delete_selected_annotations on the given selection
(the trailing redraw does not touch the model); an empty selection or an
empty collected list is a no-op. -/
def delete_selected_annotations (sel : List AnnRef) (s : AnnotationSet) :
    AnnotationSet :=
  let to_delete := collectToDelete sel
  if to_delete = [] then s
  else to_delete.foldl deleteOne s

/-- The total number of annotations in a set (main point plus the three
collections), the count the cascade-delete claim speaks about. -/
def AnnotationSet.totalCount (s : AnnotationSet) : Nat :=
  (match s.main_point with | some _ => 1 | none => 0) +
    s.texts.length + s.arrows.length + s.shapes.length

theorem length_filter_parent (l : List TextAnn) (pid : String) :
    (l.filter (fun t => ¬(t.parent_id = some pid))).length +
        (l.filter (fun t => t.parent_id = some pid)).length =
      l.length := by
  induction l with
  | nil => rfl
  | cons t l ih =>
    by_cases h : t.parent_id = some pid <;>
      simp [List.filter_cons, h] at ih ⊢ <;> omega

theorem delete_single (s : AnnotationSet) (a : AnnRef) :
    delete_selected_annotations [a] s = deleteOne s a := by
  simp [delete_selected_annotations, collectToDelete]

/-- Claim C6: deletion cascades by id only. Deleting a selected shape
removes it and exactly the texts whose parent_id equals its id (with two
linked texts the total count drops by exactly 3) and leaves arrows
untouched; deleting a selected arrow behaves symmetrically; deleting a
selected text removes only that text and never its parent. -/
theorem C6_cascade_delete (s : AnnotationSet) (sh : ShapeAnn)
    (ar : ArrowAnn) (t : TextAnn)
    (hsh : sh ∈ s.shapes)
    (htwo : (s.texts.filter (fun x => x.parent_id = some sh.id)).length = 2)
    (har : ar ∈ s.arrows)
    (ht : t ∈ s.texts) :
    ((delete_selected_annotations [.shape sh] s).texts =
        s.texts.filter (fun x => ¬(x.parent_id = some sh.id)) ∧
      (delete_selected_annotations [.shape sh] s).shapes =
        s.shapes.erase sh ∧
      (delete_selected_annotations [.shape sh] s).arrows = s.arrows ∧
      (delete_selected_annotations [.shape sh] s).totalCount + 3 =
        s.totalCount) ∧
    ((delete_selected_annotations [.arrow ar] s).texts =
        s.texts.filter (fun x => ¬(x.parent_id = some ar.id)) ∧
      (delete_selected_annotations [.arrow ar] s).arrows =
        s.arrows.erase ar ∧
      (delete_selected_annotations [.arrow ar] s).shapes = s.shapes) ∧
    ((delete_selected_annotations [.text t] s).texts = s.texts.erase t ∧
      (delete_selected_annotations [.text t] s).arrows = s.arrows ∧
      (delete_selected_annotations [.text t] s).shapes = s.shapes) := by
  rw [delete_single, delete_single, delete_single]
  have hlen := length_filter_parent s.texts sh.id
  have herase : (s.shapes.erase sh).length = s.shapes.length - 1 :=
    List.length_erase_of_mem hsh
  have hpos : 0 < s.shapes.length := List.length_pos_of_mem hsh
  refine ⟨⟨?_, ?_, ?_, ?_⟩, ⟨?_, ?_, ?_⟩, ⟨?_, ?_, ?_⟩⟩
  · simp [deleteOne, hsh]
  · simp [deleteOne, hsh]
  · simp [deleteOne, hsh]
  · simp only [deleteOne, AnnotationSet.totalCount, if_pos hsh]
    simp only [List.filter] at hlen htwo ⊢
    omega
  · simp [deleteOne, har]
  · simp [deleteOne, har]
  · simp [deleteOne, har]
  · simp [deleteOne, ht]
  · simp [deleteOne, ht]
  · simp [deleteOne, ht]

def demoTextA : TextAnn :=
  ⟨"T1", "TEXT", true, 0, ⟨1 / 4, 1 / 4⟩, "a", "Red", 30, some "S1"⟩

def demoTextB : TextAnn :=
  ⟨"T2", "TEXT", true, 0, ⟨3 / 4, 1 / 4⟩, "b", "Red", 30, some "S1"⟩

def demoTextC : TextAnn :=
  ⟨"T3", "TEXT", true, 0, ⟨1 / 2, 3 / 4⟩, "c", "Red", 30, none⟩

def demoArrow : ArrowAnn :=
  ⟨"A1", "ARROW", true, 0, ⟨0, 0⟩, ⟨1, 1⟩, "", "Red", 2, 1, 30⟩

def demoShape : ShapeAnn :=
  ⟨"S1", "SHAPE_RECT", true, 0, .RECT, [⟨0, 0⟩, ⟨1, 1⟩], "Red", none, 2⟩

def demoSet : AnnotationSet :=
  ⟨none, [demoTextA, demoTextB, demoTextC], [demoArrow], [demoShape]⟩

theorem C6_cascade_delete_witness :
    demoShape ∈ demoSet.shapes ∧
      (demoSet.texts.filter
        (fun x => x.parent_id = some demoShape.id)).length = 2 ∧
      demoArrow ∈ demoSet.arrows ∧ demoTextC ∈ demoSet.texts ∧
      (delete_selected_annotations [.shape demoShape] demoSet).totalCount +
          3 = demoSet.totalCount :=
  ⟨by simp [demoSet], by simp [demoSet, demoTextA, demoTextB, demoTextC,
      demoShape],
   by simp [demoSet], by simp [demoSet],
   (C6_cascade_delete demoSet demoShape demoArrow demoTextC
      (by simp [demoSet])
      (by simp [demoSet, demoTextA, demoTextB, demoTextC, demoShape])
      (by simp [demoSet]) (by simp [demoSet])).1.2.2.2⟩

/-! Text-move synchronization
(AnnotationScene._sync_text_annotations_from_items). Each moved,
movable text item is given by its annotation id and the scene bounding
rect the item ended at. The id-to-object dictionaries of the source are
id lookups here (ids are unique per the model invariant; the main point
text has no parent and is not part of the moved input). -/

/-- Python min(max(v, lo), hi). -/
def clampQ (v lo hi : ℚ) : ℚ := min (max v lo) hi

/-- The squared-distance key of the snap minimization. -/
def distSq (p e : ScenePt) : ℚ := (p.x - e.x) ^ 2 + (p.y - e.y) ^ 2

/-- Python min with a key function on a non-empty list: keep the first
element whose key is minimal (later elements replace the current best
only on a strictly smaller key). -/
def pyMinByDistSq (e : ScenePt) (best : ScenePt) :
    List ScenePt → ScenePt
  | [] => best
  | c :: cs =>
    pyMinByDistSq e (if distSq c e < distSq best e then c else best) cs

/-- The snap target of the arrow branch: the closest to e of the four
clamped edge projections of the text bounding box (the candidates list
of the source, in order: left, right, top, bottom edge). -/
def snapToTextRect (b : Rect) (e : ScenePt) : ScenePt :=
  pyMinByDistSq e ⟨b.left, clampQ e.y b.top b.bottom⟩
    [⟨b.right, clampQ e.y b.top b.bottom⟩,
     ⟨clampQ e.x b.left b.right, b.top⟩,
     ⟨clampQ e.x b.left b.right, b.bottom⟩]

/-- One iteration of _sync_text_annotations_from_items for a moved text
item: write the item center back as the normalized position; then, if
the parent is an arrow, snap that arrow end onto the text box; if the
parent is a shape and the move is above the 1e-6 dead band, translate
every control point of the parent shape by the same scene delta. -/
def sync_text_one (r : Rect) (s : AnnotationSet) (tid : String)
    (itemRect : Rect) : AnnotationSet :=
  match s.texts.find? (fun t => t.id == tid) with
  | none => s
  | some ann =>
    let old_center := norm_to_scene (some r) ann.position
    let new_center : ScenePt := ⟨itemRect.centerX, itemRect.centerY⟩
    let dx := new_center.x - old_center.x
    let dy := new_center.y - old_center.y
    let s1 := { s with texts := s.texts.map (fun x =>
        if x.id = tid then
          { x with position := scene_to_normalized (some r) new_center }
        else x) }
    match ann.parent_id with
    | none => s1
    | some pid =>
      if pid = "" then s1
      else
        match s1.arrows.find? (fun a => a.id == pid) with
        | some par =>
          let e := norm_to_scene (some r) par.endP
          let snap := snapToTextRect itemRect e
          let newArrows := updateFirstArrow pid
            (fun a =>
              { a with endP := scene_to_normalized (some r) snap })
            s1.arrows
          { s1 with arrows := newArrows }
        | none =>
          match s1.shapes.find? (fun sh => sh.id == pid) with
          | some _ =>
            if |dx| < 1 / 1000000 ∧ |dy| < 1 / 1000000 then s1
            else
              { s1 with shapes := s1.shapes.map (fun sh =>
                  if sh.id = pid then
                    { sh with points := sh.points.map (fun p =>
                        let ps := norm_to_scene (some r) p
                        scene_to_normalized (some r)
                          ⟨ps.x + dx, ps.y + dy⟩) }
                  else sh) }
          | none => s1

/-- AnnotationScene._sync_text_annotations_from_items over the moved,
movable text items (no image or no set is a no-op). -/
def sync_text_annotations_from_items (img : Option Rect)
    (moved : List (String × Rect)) (s : AnnotationSet) : AnnotationSet :=
  match img with
  | none => s
  | some r => moved.foldl (fun acc m => sync_text_one r acc m.1 m.2) s

/-- Membership of a scene point in the outline of a rectangle. -/
def onRectBoundary (b : Rect) (q : ScenePt) : Prop :=
  ((q.x = b.left ∨ q.x = b.right) ∧ b.top ≤ q.y ∧ q.y ≤ b.bottom) ∨
    ((q.y = b.top ∨ q.y = b.bottom) ∧ b.left ≤ q.x ∧ q.x ≤ b.right)

theorem clampQ_bounds (v lo hi : ℚ) (h : lo ≤ hi) :
    lo ≤ clampQ v lo hi ∧ clampQ v lo hi ≤ hi := by
  unfold clampQ
  constructor
  · exact le_min (le_max_right v lo) h
  · exact min_le_right _ _

theorem clampQ_sq_le (v lo hi y : ℚ) (h1 : lo ≤ y) (h2 : y ≤ hi) :
    (clampQ v lo hi - v) ^ 2 ≤ (y - v) ^ 2 := by
  unfold clampQ
  rcases le_total v lo with h3 | h3
  · rw [max_eq_right h3, min_eq_left (le_trans h1 h2)]
    nlinarith
  · rw [max_eq_left h3]
    rcases le_total v hi with h4 | h4
    · rw [min_eq_left h4]
      nlinarith [sq_nonneg (y - v)]
    · rw [min_eq_right h4]
      nlinarith

theorem pyMinByDistSq_le (e : ScenePt) (l : List ScenePt) :
    ∀ best c, (c = best ∨ c ∈ l) →
      distSq (pyMinByDistSq e best l) e ≤ distSq c e := by
  induction l with
  | nil =>
    rintro best c (rfl | h)
    · exact le_refl _
    · cases h
  | cons a l ih =>
    rintro best c (rfl | h)
    · refine le_trans (ih _ _ (Or.inl rfl)) ?_
      split
      · next hlt => exact le_of_lt hlt
      · exact le_refl _
    · rcases List.mem_cons.mp h with rfl | h
      · refine le_trans (ih _ _ (Or.inl rfl)) ?_
        split
        · exact le_refl _
        · next hlt => exact le_of_not_lt hlt
      · exact ih _ _ (Or.inr h)

theorem pyMinByDistSq_mem (e : ScenePt) (l : List ScenePt) :
    ∀ best, pyMinByDistSq e best l = best ∨ pyMinByDistSq e best l ∈ l := by
  induction l with
  | nil => intro best; exact Or.inl rfl
  | cons a l ih =>
    intro best
    simp only [pyMinByDistSq]
    rcases ih (if distSq a e < distSq best e then a else best) with h | h
    · rw [h]
      split
      · exact Or.inr (List.mem_cons_self _ _)
      · exact Or.inl rfl
    · exact Or.inr (List.mem_cons_of_mem _ h)

theorem snapToTextRect_boundary (b : Rect) (e : ScenePt)
    (hw : 0 ≤ b.width) (hh : 0 ≤ b.height) :
    onRectBoundary b (snapToTextRect b e) := by
  have htb : b.top ≤ b.bottom := by
    unfold Rect.bottom
    linarith
  have hlr : b.left ≤ b.right := by
    unfold Rect.right
    linarith
  have hy := clampQ_bounds e.y b.top b.bottom htb
  have hx := clampQ_bounds e.x b.left b.right hlr
  have hmem := pyMinByDistSq_mem e
    [⟨b.right, clampQ e.y b.top b.bottom⟩,
     ⟨clampQ e.x b.left b.right, b.top⟩,
     ⟨clampQ e.x b.left b.right, b.bottom⟩]
    ⟨b.left, clampQ e.y b.top b.bottom⟩
  unfold snapToTextRect
  rcases hmem with h | h
  · rw [h]
    exact Or.inl ⟨Or.inl rfl, hy.1, hy.2⟩
  · simp only [List.mem_cons, List.not_mem_nil, or_false] at h
    rcases h with h | h | h <;> rw [h]
    · exact Or.inl ⟨Or.inr rfl, hy.1, hy.2⟩
    · exact Or.inr ⟨Or.inl rfl, hx.1, hx.2⟩
    · exact Or.inr ⟨Or.inr rfl, hx.1, hx.2⟩

theorem snapToTextRect_minimal (b : Rect) (e : ScenePt) (q : ScenePt)
    (hq : onRectBoundary b q) :
    distSq (snapToTextRect b e) e ≤ distSq q e := by
  unfold snapToTextRect
  rcases hq with ⟨hx, hy1, hy2⟩ | ⟨hy, hx1, hx2⟩
  · rcases hx with hx | hx
    · refine le_trans (pyMinByDistSq_le e _ _ _ (Or.inl rfl)) ?_
      unfold distSq
      have := clampQ_sq_le e.y b.top b.bottom q.y hy1 hy2
      rw [← hx]
      nlinarith
    · refine le_trans (pyMinByDistSq_le e _ _
        ⟨b.right, clampQ e.y b.top b.bottom⟩ (Or.inr (by simp))) ?_
      unfold distSq
      have := clampQ_sq_le e.y b.top b.bottom q.y hy1 hy2
      rw [← hx]
      nlinarith
  · rcases hy with hy | hy
    · refine le_trans (pyMinByDistSq_le e _ _
        ⟨clampQ e.x b.left b.right, b.top⟩ (Or.inr (by simp))) ?_
      unfold distSq
      have := clampQ_sq_le e.x b.left b.right q.x hx1 hx2
      rw [← hy]
      nlinarith
    · refine le_trans (pyMinByDistSq_le e _ _
        ⟨clampQ e.x b.left b.right, b.bottom⟩ (Or.inr (by simp))) ?_
      unfold distSq
      have := clampQ_sq_le e.x b.left b.right q.x hx1 hx2
      rw [← hy]
      nlinarith

theorem updateFirstArrow_map_id_start (pid : String)
    (f : ArrowAnn → ArrowAnn)
    (hf : ∀ a, (f a).id = a.id ∧ (f a).start = a.start)
    (l : List ArrowAnn) :
    (updateFirstArrow pid f l).map (fun a => (a.id, a.start)) =
      l.map (fun a => (a.id, a.start)) := by
  induction l with
  | nil => rfl
  | cons a l ih =>
    simp only [updateFirstArrow]
    split
    · simp [(hf a).1, (hf a).2]
    · simp [ih]

/-- The value the text-move pass writes into the parent arrow end: the
normalized image of the snap of the current end onto the text box. -/
def snapNewEnd (r itemRect : Rect) (par : ArrowAnn) : Point2D :=
  scene_to_normalized (some r)
    (snapToTextRect itemRect (norm_to_scene (some r) par.endP))

/-- Claim C4 as amended: in a text-move synchronization pass where the
moved TextAnnotation has a parent arrow, the arrow end is set to the
normalized image of the point of the text bounding-box outline closest
to the arrow CURRENT END (the minimum over the four clamped edge
projections), with no outward pad, and every arrow keeps its id and its
start point. -/
theorem C4_arrow_snap_amended (r itemRect : Rect) (s : AnnotationSet)
    (t : TextAnn) (par : ArrowAnn) (pid : String)
    (ht : s.texts.find? (fun x => x.id == t.id) = some t)
    (hpid : t.parent_id = some pid) (hpid2 : pid ≠ "")
    (hfind : s.arrows.find? (fun a => a.id == pid) = some par)
    (hw : 0 ≤ itemRect.width) (hh : 0 ≤ itemRect.height) :
    onRectBoundary itemRect
        (snapToTextRect itemRect (norm_to_scene (some r) par.endP)) ∧
      (∀ q, onRectBoundary itemRect q →
        distSq (snapToTextRect itemRect (norm_to_scene (some r) par.endP))
            (norm_to_scene (some r) par.endP) ≤
          distSq q (norm_to_scene (some r) par.endP)) ∧
      (sync_text_annotations_from_items (some r) [(t.id, itemRect)]
          s).arrows =
        updateFirstArrow pid
          (fun a => { a with endP := snapNewEnd r itemRect par })
          s.arrows ∧
      (sync_text_annotations_from_items (some r) [(t.id, itemRect)]
          s).arrows.map (fun a => (a.id, a.start)) =
        s.arrows.map (fun a => (a.id, a.start)) := by
  have harr : (sync_text_annotations_from_items (some r) [(t.id, itemRect)]
      s).arrows =
      updateFirstArrow pid
        (fun a => { a with endP := snapNewEnd r itemRect par })
        s.arrows := by
    simp [sync_text_annotations_from_items, sync_text_one, ht, hpid,
      hpid2, hfind, snapNewEnd]
  refine ⟨snapToTextRect_boundary itemRect _ hw hh,
    fun q hq => snapToTextRect_minimal itemRect _ q hq, harr, ?_⟩
  rw [harr]
  apply updateFirstArrow_map_id_start
  intro a
  exact ⟨rfl, rfl⟩

def imgRect100 : Rect := ⟨0, 0, 100, 100⟩

def snapDemoText : TextAnn :=
  ⟨"T1", "TEXT", true, 0, ⟨1 / 2, 1 / 2⟩, "t", "Red", 30, some "A1"⟩

def snapDemoArrow : ArrowAnn :=
  ⟨"A1", "ARROW", true, 0, ⟨9 / 10, 1 / 2⟩, ⟨3 / 10, 1 / 2⟩, "", "Red",
   2, 1 / 50, 30⟩

def snapDemoSet : AnnotationSet :=
  ⟨none, [snapDemoText], [snapDemoArrow], []⟩

def snapDemoBox : Rect := ⟨40, 40, 20, 20⟩

/-- Claim C4 counterexample: the claim describes the snap as landing on
the box perimeter point nearest the arrow START, pushed outward by a
pixel pad (which is what edge_point_on_rect_towards computes). In the
text-move pass the code instead snaps to the point nearest the arrow
OLD END with no pad: with the image 100x100, text box (40,40,20,20),
arrow start (0.9,0.5) and end (0.3,0.5), the pass stores end (2/5,1/2)
(scene point (40,50), on the left edge, on the perimeter itself), while
the claim prescribes (63/100,1/2) (scene point (63,50), right edge plus
pad 3); the two differ. -/
theorem C4_arrow_snap_counterexample :
    (sync_text_annotations_from_items (some imgRect100)
        [("T1", snapDemoBox)] snapDemoSet).arrows =
      [{ snapDemoArrow with endP := ⟨2 / 5, 1 / 2⟩ }] ∧
      scene_to_normalized (some imgRect100)
          (edge_point_on_rect_towards
            (fun q => if q = 1600 then 40 else 0) snapDemoBox
            (norm_to_scene (some imgRect100) snapDemoArrow.start) 3) =
        ⟨63 / 100, 1 / 2⟩ ∧
      (⟨2 / 5, 1 / 2⟩ : Point2D) ≠ ⟨63 / 100, 1 / 2⟩ := by
  refine ⟨?_, ?_, ?_⟩
  · norm_num [sync_text_annotations_from_items, sync_text_one,
      snapDemoSet, snapDemoText, snapDemoArrow, snapDemoBox, imgRect100,
      norm_to_scene, scene_to_normalized, snapToTextRect, pyMinByDistSq,
      distSq, clampQ, updateFirstArrow, Rect.centerX, Rect.centerY,
      Rect.bottom, Rect.right, min_def, max_def, List.find?]
    rw [if_neg (by decide : ¬("A1" : String) = "")]
  · norm_num [edge_point_on_rect_towards, snapDemoBox, snapDemoArrow,
      imgRect100, norm_to_scene, scene_to_normalized, Rect.centerX,
      Rect.centerY, min_def, max_def]
  · norm_num [Point2D.mk.injEq]

theorem C4_arrow_snap_amended_witness :
    snapDemoSet.texts.find? (fun x => x.id == snapDemoText.id) =
        some snapDemoText ∧
      snapDemoText.parent_id = some "A1" ∧
      snapDemoSet.arrows.find? (fun a => a.id == "A1") =
        some snapDemoArrow ∧
      (0 : ℚ) ≤ snapDemoBox.width ∧ (0 : ℚ) ≤ snapDemoBox.height ∧
      onRectBoundary snapDemoBox
        (snapToTextRect snapDemoBox
          (norm_to_scene (some imgRect100) snapDemoArrow.endP)) :=
  ⟨rfl, rfl, rfl, by norm_num [snapDemoBox], by norm_num [snapDemoBox],
   (C4_arrow_snap_amended imgRect100 snapDemoBox snapDemoSet
      snapDemoText snapDemoArrow "A1" rfl rfl (by simp) rfl
      (by norm_num [snapDemoBox]) (by norm_num [snapDemoBox])).1⟩

/-! Shape-move synchronization
(AnnotationScene._sync_shape_annotations_from_items). Each selected,
movable shape item is given by its annotation id and the scene points of
its final geometry: the mapped rect corners (top-left, bottom-right) for
RECT/CIRCLE/ELLIPSE items, the mapped polygon vertices otherwise. The
item bounding rect used for the center is the item rect inflated
symmetrically by the pen, so its center equals the rect center. DATUM_L
items are created selectable but not movable, so they never reach this
pass; the single shape_type test below merges the two storing branches
of _update_shape_annotation_from_item, which both store exactly the
supplied geometry. -/

/-- Center of the axis-aligned bounding box of a non-empty point list
(min/max over both coordinates, as in the source). -/
def bboxCenter (l : List ScenePt) : ScenePt :=
  match l with
  | [] => ⟨0, 0⟩
  | p :: ps =>
    let xs := ps.map (fun q => q.x)
    let ys := ps.map (fun q => q.y)
    ⟨(xs.foldl min p.x + xs.foldl max p.x) / 2,
     (ys.foldl min p.y + ys.foldl max p.y) / 2⟩

/-- One iteration of _sync_shape_annotations_from_items: compute the
center delta between the stored control points and the item geometry,
store the new control points, and if the delta is above the 1e-3 dead
band translate every text whose parent_id is this shape id by the same
scene delta. -/
def sync_shape_one (r : Rect) (s : AnnotationSet) (sid : String)
    (newPts : List ScenePt) : AnnotationSet :=
  match s.shapes.find? (fun sh => sh.id == sid) with
  | none => s
  | some ann =>
    if ann.points.isEmpty then s
    else if ann.shape_type = ShapeType.DATUM_L then s
    else if newPts.isEmpty then s
    else
      let old_center := bboxCenter (ann.points.map (norm_to_scene (some r)))
      let new_center := bboxCenter newPts
      let dx := new_center.x - old_center.x
      let dy := new_center.y - old_center.y
      let s1 := { s with shapes := s.shapes.map (fun sh =>
          if sh.id = sid then
            { sh with points := newPts.map (scene_to_normalized (some r)) }
          else sh) }
      if |dx| < 1 / 1000 ∧ |dy| < 1 / 1000 then s1
      else
        { s1 with texts := s1.texts.map (fun t =>
            if t.parent_id = some sid then
              let t_old := norm_to_scene (some r) t.position
              let newPos := scene_to_normalized (some r)
                ⟨t_old.x + dx, t_old.y + dy⟩
              { t with position := newPos }
            else t) }

/-- AnnotationScene._sync_shape_annotations_from_items over the
selected, movable shape items. -/
def sync_shape_annotations_from_items (img : Option Rect)
    (moved : List (String × List ScenePt)) (s : AnnotationSet) :
    AnnotationSet :=
  match img with
  | none => s
  | some r => moved.foldl (fun acc m => sync_shape_one r acc m.1 m.2) s

/-- Moving a scene point by (dx, dy) moves its normalized image by
exactly (dx / width, dy / height). -/
theorem shift_roundtrip (r : Rect) (p : Point2D) (dx dy : ℚ)
    (hw : 0 < r.width) (hh : 0 < r.height) :
    scene_to_normalized (some r)
        ⟨(norm_to_scene (some r) p).x + dx,
         (norm_to_scene (some r) p).y + dy⟩ =
      ⟨p.x + dx / r.width, p.y + dy / r.height⟩ := by
  simp only [norm_to_scene, scene_to_normalized]
  rw [if_neg (by push_neg; exact ⟨hw, hh⟩)]
  simp only [Point2D.mk.injEq]
  constructor <;> field_simp <;> ring

/-- Claim C7: in a shape-move synchronization pass (single moved shape
item, delta above the dead band), the shape control points are
recomputed from the item geometry, every text whose parent_id equals the
moved shape id is translated in normalized coordinates by exactly the
bounding-box center delta (dx / width, dy / height) - the same delta as
the shape - and all other texts and the arrows are untouched. -/
theorem C7_grouped_move (r : Rect) (s : AnnotationSet) (sh : ShapeAnn)
    (newPts : List ScenePt) (dx dy : ℚ)
    (hfind : s.shapes.find? (fun x => x.id == sh.id) = some sh)
    (hw : 0 < r.width) (hh : 0 < r.height)
    (hold : sh.points ≠ []) (hnew : newPts ≠ [])
    (hkind : ¬(sh.shape_type = ShapeType.DATUM_L))
    (hdx : dx = (bboxCenter newPts).x -
      (bboxCenter (sh.points.map (norm_to_scene (some r)))).x)
    (hdy : dy = (bboxCenter newPts).y -
      (bboxCenter (sh.points.map (norm_to_scene (some r)))).y)
    (hthr : ¬(|dx| < 1 / 1000 ∧ |dy| < 1 / 1000)) :
    (sync_shape_annotations_from_items (some r) [(sh.id, newPts)]
        s).texts =
      s.texts.map (fun t =>
        if t.parent_id = some sh.id then
          { t with position := ⟨t.position.x + dx / r.width,
              t.position.y + dy / r.height⟩ }
        else t) ∧
    (sync_shape_annotations_from_items (some r) [(sh.id, newPts)]
        s).shapes =
      s.shapes.map (fun x =>
        if x.id = sh.id then
          { x with points := newPts.map (scene_to_normalized (some r)) }
        else x) ∧
    (sync_shape_annotations_from_items (some r) [(sh.id, newPts)]
        s).arrows = s.arrows := by
  subst hdx
  subst hdy
  have hoe : sh.points.isEmpty = false := by
    cases hp : sh.points with
    | nil => exact absurd hp hold
    | cons a l => rfl
  have hne : newPts.isEmpty = false := by
    cases hp : newPts with
    | nil => exact absurd hp hnew
    | cons a l => rfl
  simp only [sync_shape_annotations_from_items, List.foldl_cons,
    List.foldl_nil, sync_shape_one, hfind, hoe, hne,
    Bool.false_eq_true, if_false, if_neg hkind, if_neg hthr]
  refine ⟨?_, by trivial, by trivial⟩
  congr 1
  funext t
  by_cases hp : t.parent_id = some sh.id
  · simp only [hp, if_pos]
    rw [shift_roundtrip r t.position _ _ hw hh]
  · simp [hp]

def moveDemoShape : ShapeAnn :=
  ⟨"S2", "SHAPE_RECT", true, 0, .RECT, [⟨1 / 10, 1 / 10⟩, ⟨3 / 10, 3 / 10⟩],
   "Red", none, 2⟩

def moveDemoTextA : TextAnn :=
  ⟨"T4", "TEXT", true, 0, ⟨1 / 5, 1 / 5⟩, "lbl", "Red", 30, some "S2"⟩

def moveDemoTextB : TextAnn :=
  ⟨"T5", "TEXT", true, 0, ⟨4 / 5, 4 / 5⟩, "x", "Red", 30, none⟩

def moveDemoSet : AnnotationSet :=
  ⟨none, [moveDemoTextA, moveDemoTextB], [], [moveDemoShape]⟩

theorem C7_grouped_move_witness :
    moveDemoSet.shapes.find? (fun x => x.id == moveDemoShape.id) =
        some moveDemoShape ∧
      (sync_shape_annotations_from_items (some imgRect100)
          [(moveDemoShape.id, [⟨30, 30⟩, ⟨50, 50⟩])] moveDemoSet).texts =
        moveDemoSet.texts.map (fun t =>
          if t.parent_id = some moveDemoShape.id then
            { t with position := ⟨t.position.x + 20 / imgRect100.width,
                t.position.y + 20 / imgRect100.height⟩ }
          else t) :=
  ⟨rfl,
   (C7_grouped_move imgRect100 moveDemoSet moveDemoShape
      [⟨30, 30⟩, ⟨50, 50⟩] 20 20 rfl (by norm_num [imgRect100])
      (by norm_num [imgRect100]) (by simp [moveDemoShape]) (by simp)
      (by simp [moveDemoShape])
      (by norm_num [bboxCenter, moveDemoShape, imgRect100, norm_to_scene,
        min_def, max_def])
      (by norm_num [bboxCenter, moveDemoShape, imgRect100, norm_to_scene,
        min_def, max_def])
      (by norm_num)).1⟩

/-! Selection-preserving redraw and the style-update operations
(AnnotationScene._redraw_annotations, _redraw_annotations_preserve_selection
and the update_selected_* family). An interactive item is reduced to the
kind and id of the annotation it references plus its selected flag;
_redraw_annotations creates items exactly for the drawable visible
annotations (texts one item each, arrows one clickable path item each,
shapes one resizable item each with the point-count guards of
_draw_shape, DATUM_L four line/head items), all unselected. -/

/-- An interactive scene item: the annotation it references (kind and
id) and whether it is selected. -/
structure SceneItem where
  kind : AnnotationKind
  annId : String
  selected : Bool
deriving DecidableEq, Repr

/-- Items _draw_text creates for a text annotation (guarded by the
visibility test of _redraw_annotations). -/
def textItemsOf (t : TextAnn) : List SceneItem :=
  if t.visible then [⟨.TEXT, t.id, false⟩] else []

/-- Items _draw_arrow creates for an arrow annotation (the single
clickable path item that is added to the scene). -/
def arrowItemsOf (a : ArrowAnn) : List SceneItem :=
  if a.visible then [⟨.ARROW, a.id, false⟩] else []

/-- Items _draw_shape creates for a shape annotation: four line/head
items for a DATUM_L with its anchor present, one resizable item for the
other kinds when enough control points exist. -/
def shapeItems (sh : ShapeAnn) : List SceneItem :=
  match sh.shape_type with
  | .DATUM_L =>
    if sh.points.length < 1 then []
    else [⟨.SHAPE, sh.id, false⟩, ⟨.SHAPE, sh.id, false⟩,
          ⟨.SHAPE, sh.id, false⟩, ⟨.SHAPE, sh.id, false⟩]
  | .RECT | .CIRCLE | .ELLIPSE =>
    if sh.points.length < 2 then [] else [⟨.SHAPE, sh.id, false⟩]
  | .TRIANGLE | .POLYGON | .STAR =>
    if sh.points.length < 3 then [] else [⟨.SHAPE, sh.id, false⟩]

def shapeItemsOf (sh : ShapeAnn) : List SceneItem :=
  if sh.visible then shapeItems sh else []

/-- The items _redraw_annotations leaves in the scene, in draw order. -/
def drawnItems (s : AnnotationSet) : List SceneItem :=
  (match s.main_point with
   | some t => textItemsOf t
   | none => []) ++
    s.texts.flatMap textItemsOf ++ s.arrows.flatMap arrowItemsOf ++
    s.shapes.flatMap shapeItemsOf

/-- The scene as the redraw and style operations see it. -/
structure SceneState where
  aset : AnnotationSet
  items : List SceneItem
deriving Repr

/-- The set of annotation ids of the currently selected items. -/
def selectedAnnIds (items : List SceneItem) : Finset String :=
  ((items.filter (fun it => it.selected)).map (fun it => it.annId)).toFinset

/-- The id set _redraw_annotations_preserve_selection captures before
the rebuild: truthy (non-empty) ids of selected items. -/
def capturedIds (items : List SceneItem) : Finset String :=
  ((items.filter (fun it => it.selected && it.annId != "")).map
    (fun it => it.annId)).toFinset

/-- The ids of the items the rebuild creates. -/
def drawnIdSet (s : AnnotationSet) : Finset String :=
  ((drawnItems s).map (fun it => it.annId)).toFinset

/-- AnnotationScene._redraw_annotations_preserve_selection: capture the
selected ids, rebuild every item, re-select exactly the rebuilt items
whose truthy annotation id is in the captured set. -/
def redraw_annotations_preserve_selection (st : SceneState) :
    SceneState :=
  let ids := capturedIds st.items
  ⟨st.aset, (drawnItems st.aset).map (fun it =>
    { it with selected := decide (it.annId ≠ "" ∧ it.annId ∈ ids) })⟩

/-- AnnotationScene.update_selected_stroke_width: write the width into
every shape (stroke_width) and arrow (line_width) referenced by a
selected item, then redraw preserving selection if anything changed.
The source loop assigns through the item references; the map writes the
same value into the same annotations. -/
def update_selected_stroke_width (w : ℚ) (st : SceneState) : SceneState :=
  let sel := st.items.filter (fun it => it.selected)
  let changed := sel.any (fun it =>
    it.kind == AnnotationKind.SHAPE || it.kind == AnnotationKind.ARROW)
  let aset1 := { st.aset with
    shapes := st.aset.shapes.map (fun sh =>
      if sel.any (fun it =>
          it.kind == AnnotationKind.SHAPE && it.annId == sh.id) then
        { sh with stroke_width := w }
      else sh),
    arrows := st.aset.arrows.map (fun a =>
      if sel.any (fun it =>
          it.kind == AnnotationKind.ARROW && it.annId == a.id) then
        { a with line_width := w }
      else a) }
  if changed then redraw_annotations_preserve_selection ⟨aset1, st.items⟩
  else ⟨aset1, st.items⟩

/-- AnnotationScene.update_selected_shape_stroke_color. -/
def update_selected_shape_stroke_color (c : String) (st : SceneState) :
    SceneState :=
  let sel := st.items.filter (fun it => it.selected)
  let changed := sel.any (fun it => it.kind == AnnotationKind.SHAPE)
  let aset1 := { st.aset with
    shapes := st.aset.shapes.map (fun sh =>
      if sel.any (fun it =>
          it.kind == AnnotationKind.SHAPE && it.annId == sh.id) then
        { sh with stroke_color := c }
      else sh) }
  if changed then redraw_annotations_preserve_selection ⟨aset1, st.items⟩
  else ⟨aset1, st.items⟩

/-- AnnotationScene.update_selected_shape_fill_color. -/
def update_selected_shape_fill_color (c : Option String)
    (st : SceneState) : SceneState :=
  let sel := st.items.filter (fun it => it.selected)
  let changed := sel.any (fun it => it.kind == AnnotationKind.SHAPE)
  let aset1 := { st.aset with
    shapes := st.aset.shapes.map (fun sh =>
      if sel.any (fun it =>
          it.kind == AnnotationKind.SHAPE && it.annId == sh.id) then
        { sh with fill_color := c }
      else sh) }
  if changed then redraw_annotations_preserve_selection ⟨aset1, st.items⟩
  else ⟨aset1, st.items⟩

/-- AnnotationScene.update_selected_text_color (the selected text items
may also reference the main point text). -/
def update_selected_text_color (c : String) (st : SceneState) :
    SceneState :=
  let sel := st.items.filter (fun it => it.selected)
  let changed := sel.any (fun it => it.kind == AnnotationKind.TEXT)
  let aset1 := { st.aset with
    main_point := st.aset.main_point.map (fun t =>
      if sel.any (fun it =>
          it.kind == AnnotationKind.TEXT && it.annId == t.id) then
        { t with color := c }
      else t),
    texts := st.aset.texts.map (fun t =>
      if sel.any (fun it =>
          it.kind == AnnotationKind.TEXT && it.annId == t.id) then
        { t with color := c }
      else t) }
  if changed then redraw_annotations_preserve_selection ⟨aset1, st.items⟩
  else ⟨aset1, st.items⟩

/-- AnnotationScene.update_selected_arrow_color. -/
def update_selected_arrow_color (c : String) (st : SceneState) :
    SceneState :=
  let sel := st.items.filter (fun it => it.selected)
  let changed := sel.any (fun it => it.kind == AnnotationKind.ARROW)
  let aset1 := { st.aset with
    arrows := st.aset.arrows.map (fun a =>
      if sel.any (fun it =>
          it.kind == AnnotationKind.ARROW && it.annId == a.id) then
        { a with color := c }
      else a) }
  if changed then redraw_annotations_preserve_selection ⟨aset1, st.items⟩
  else ⟨aset1, st.items⟩

/-- AnnotationScene.update_selected_text_font_size (the source accepts a
float; the callers pass whole sizes, modelled as Int like the field). -/
def update_selected_text_font_size (size : Int) (st : SceneState) :
    SceneState :=
  let sel := st.items.filter (fun it => it.selected)
  let changed := sel.any (fun it => it.kind == AnnotationKind.TEXT)
  let aset1 := { st.aset with
    main_point := st.aset.main_point.map (fun t =>
      if sel.any (fun it =>
          it.kind == AnnotationKind.TEXT && it.annId == t.id) then
        { t with font_size := size }
      else t),
    texts := st.aset.texts.map (fun t =>
      if sel.any (fun it =>
          it.kind == AnnotationKind.TEXT && it.annId == t.id) then
        { t with font_size := size }
      else t) }
  if changed then redraw_annotations_preserve_selection ⟨aset1, st.items⟩
  else ⟨aset1, st.items⟩

theorem mem_selectedAnnIds (items : List SceneItem) (x : String) :
    x ∈ selectedAnnIds items ↔
      ∃ it, it ∈ items ∧ it.selected = true ∧ it.annId = x := by
  simp [selectedAnnIds, List.mem_filter, and_assoc]

theorem mem_drawnIdSet (s : AnnotationSet) (x : String) :
    x ∈ drawnIdSet s ↔ ∃ it, it ∈ drawnItems s ∧ it.annId = x := by
  simp [drawnIdSet]

theorem capturedIds_eq (items : List SceneItem)
    (h : ∀ i ∈ selectedAnnIds items, i ≠ "") :
    capturedIds items = selectedAnnIds items := by
  ext x
  rw [mem_selectedAnnIds]
  simp only [capturedIds, List.mem_toFinset, List.mem_map,
    List.mem_filter, Bool.and_eq_true, bne_iff_ne, ne_eq]
  constructor
  · rintro ⟨it, ⟨hm, hs, _⟩, rfl⟩
    exact ⟨it, hm, hs, rfl⟩
  · rintro ⟨it, hm, hs, rfl⟩
    refine ⟨it, ⟨hm, hs, ?_⟩, rfl⟩
    apply h
    rw [mem_selectedAnnIds]
    exact ⟨it, hm, hs, rfl⟩

theorem selectedAnnIds_redraw (st : SceneState)
    (h1 : ∀ i ∈ selectedAnnIds st.items, i ≠ "")
    (h2 : selectedAnnIds st.items ⊆ drawnIdSet st.aset) :
    selectedAnnIds (redraw_annotations_preserve_selection st).items =
      selectedAnnIds st.items := by
  have hcap := capturedIds_eq st.items h1
  ext x
  rw [mem_selectedAnnIds]
  simp only [redraw_annotations_preserve_selection, hcap]
  constructor
  · rintro ⟨it, hm, hsel, rfl⟩
    simp only [List.mem_map] at hm
    obtain ⟨it0, hm0, rfl⟩ := hm
    simp only [decide_eq_true_eq] at hsel
    exact hsel.2
  · intro hx
    have hxd : x ∈ drawnIdSet st.aset := h2 hx
    obtain ⟨it0, hm0, hid⟩ := (mem_drawnIdSet _ _).mp hxd
    refine ⟨_, List.mem_map_of_mem _ hm0, ?_, hid⟩
    simp only [decide_eq_true_eq]
    rw [hid]
    exact ⟨h1 x hx, hx⟩

theorem textItemsOf_congr (t t' : TextAnn) (hid : t'.id = t.id)
    (hv : t'.visible = t.visible) : textItemsOf t' = textItemsOf t := by
  simp [textItemsOf, hid, hv]

theorem arrowItemsOf_congr (a a' : ArrowAnn) (hid : a'.id = a.id)
    (hv : a'.visible = a.visible) : arrowItemsOf a' = arrowItemsOf a := by
  simp [arrowItemsOf, hid, hv]

theorem shapeItemsOf_congr (sh sh' : ShapeAnn) (hid : sh'.id = sh.id)
    (hv : sh'.visible = sh.visible)
    (hty : sh'.shape_type = sh.shape_type)
    (hp : sh'.points = sh.points) :
    shapeItemsOf sh' = shapeItemsOf sh := by
  unfold shapeItemsOf shapeItems
  rw [hid, hv, hty, hp]

theorem flatMap_map_eq {α β γ : Type} (l : List α) (f : α → β)
    (g : β → List γ) :
    (l.map f).flatMap g = l.flatMap (fun x => g (f x)) := by
  induction l with
  | nil => rfl
  | cons a l ih => simp [ih]

theorem drawnItems_map_shapes_arrows (s : AnnotationSet)
    (fsh : ShapeAnn → ShapeAnn) (far : ArrowAnn → ArrowAnn)
    (hsh : ∀ x, shapeItemsOf (fsh x) = shapeItemsOf x)
    (har : ∀ x, arrowItemsOf (far x) = arrowItemsOf x) :
    drawnItems
        { s with
          shapes := s.shapes.map fsh
          arrows := s.arrows.map far } = drawnItems s := by
  unfold drawnItems
  have e1 : (fun x => arrowItemsOf (far x)) = arrowItemsOf := funext har
  have e2 : (fun x => shapeItemsOf (fsh x)) = shapeItemsOf := funext hsh
  rw [flatMap_map_eq, flatMap_map_eq, e1, e2]

theorem drawnItems_map_texts (s : AnnotationSet) (ft : TextAnn → TextAnn)
    (hft : ∀ t, textItemsOf (ft t) = textItemsOf t) :
    drawnItems
        { s with
          main_point := s.main_point.map ft
          texts := s.texts.map ft } = drawnItems s := by
  unfold drawnItems
  have e1 : (fun t => textItemsOf (ft t)) = textItemsOf := funext hft
  rw [flatMap_map_eq, e1]
  cases s.main_point with
  | none => rfl
  | some t => simp [hft]

theorem drawnIdSet_congr (s s' : AnnotationSet)
    (h : drawnItems s' = drawnItems s) : drawnIdSet s' = drawnIdSet s := by
  unfold drawnIdSet
  rw [h]

/-- Shared step for every style operation: whether or not the operation
triggers the selection-preserving redraw, the selected id set is kept,
provided the mutated set draws the same items. -/
theorem selIds_style_step (st : SceneState) (aset1 : AnnotationSet)
    (changed : Bool)
    (h1 : ∀ i ∈ selectedAnnIds st.items, i ≠ "")
    (h2 : selectedAnnIds st.items ⊆ drawnIdSet st.aset)
    (hdraw : drawnItems aset1 = drawnItems st.aset) :
    selectedAnnIds
        (if changed then
          redraw_annotations_preserve_selection ⟨aset1, st.items⟩
        else ⟨aset1, st.items⟩).items =
      selectedAnnIds st.items := by
  split
  · refine selectedAnnIds_redraw ⟨aset1, st.items⟩ h1 ?_
    show selectedAnnIds st.items ⊆ drawnIdSet aset1
    rw [drawnIdSet_congr st.aset aset1 hdraw]
    exact h2
  · rfl

theorem drawnItems_map_shapes (s : AnnotationSet)
    (fsh : ShapeAnn → ShapeAnn)
    (hsh : ∀ x, shapeItemsOf (fsh x) = shapeItemsOf x) :
    drawnItems { s with shapes := s.shapes.map fsh } = drawnItems s := by
  unfold drawnItems
  have e2 : (fun x => shapeItemsOf (fsh x)) = shapeItemsOf := funext hsh
  rw [flatMap_map_eq, e2]

theorem drawnItems_map_arrows (s : AnnotationSet)
    (far : ArrowAnn → ArrowAnn)
    (har : ∀ x, arrowItemsOf (far x) = arrowItemsOf x) :
    drawnItems { s with arrows := s.arrows.map far } = drawnItems s := by
  unfold drawnItems
  have e1 : (fun x => arrowItemsOf (far x)) = arrowItemsOf := funext har
  rw [flatMap_map_eq, e1]

/-- Claim C9: every style-update operation on the current selection
(stroke width, shape stroke color, shape fill color, text color, arrow
color, text size) leaves the set of selected annotation ids unchanged:
the triggered redraw captures the selected ids, rebuilds every item,
and re-selects exactly the items whose annotation id was captured. The
hypotheses record that every selected item references a (necessarily
non-empty) annotation id that the rebuild draws again, which holds for
any selection made on drawn items since style updates change neither
visibility nor geometry. -/
theorem C9_selection_survives_restyle (st : SceneState) (w : ℚ)
    (c1 c2 c4 : String) (c3 : Option String) (sz : Int)
    (h1 : ∀ i ∈ selectedAnnIds st.items, i ≠ "")
    (h2 : selectedAnnIds st.items ⊆ drawnIdSet st.aset) :
    selectedAnnIds (update_selected_stroke_width w st).items =
        selectedAnnIds st.items ∧
      selectedAnnIds (update_selected_shape_stroke_color c1 st).items =
        selectedAnnIds st.items ∧
      selectedAnnIds (update_selected_shape_fill_color c3 st).items =
        selectedAnnIds st.items ∧
      selectedAnnIds (update_selected_text_color c2 st).items =
        selectedAnnIds st.items ∧
      selectedAnnIds (update_selected_arrow_color c4 st).items =
        selectedAnnIds st.items ∧
      selectedAnnIds (update_selected_text_font_size sz st).items =
        selectedAnnIds st.items := by
  refine ⟨?_, ?_, ?_, ?_, ?_, ?_⟩
  · simp only [update_selected_stroke_width]
    exact selIds_style_step st _ _ h1 h2
      (drawnItems_map_shapes_arrows st.aset _ _
        (fun x => by
          split
          · exact shapeItemsOf_congr x _ rfl rfl rfl rfl
          · rfl)
        (fun x => by
          split
          · exact arrowItemsOf_congr x _ rfl rfl
          · rfl))
  · simp only [update_selected_shape_stroke_color]
    exact selIds_style_step st _ _ h1 h2
      (drawnItems_map_shapes st.aset _
        (fun x => by
          split
          · exact shapeItemsOf_congr x _ rfl rfl rfl rfl
          · rfl))
  · simp only [update_selected_shape_fill_color]
    exact selIds_style_step st _ _ h1 h2
      (drawnItems_map_shapes st.aset _
        (fun x => by
          split
          · exact shapeItemsOf_congr x _ rfl rfl rfl rfl
          · rfl))
  · simp only [update_selected_text_color]
    exact selIds_style_step st _ _ h1 h2
      (drawnItems_map_texts st.aset _
        (fun x => by
          split
          · exact textItemsOf_congr x _ rfl rfl
          · rfl))
  · simp only [update_selected_arrow_color]
    exact selIds_style_step st _ _ h1 h2
      (drawnItems_map_arrows st.aset _
        (fun x => by
          split
          · exact arrowItemsOf_congr x _ rfl rfl
          · rfl))
  · simp only [update_selected_text_font_size]
    exact selIds_style_step st _ _ h1 h2
      (drawnItems_map_texts st.aset _
        (fun x => by
          split
          · exact textItemsOf_congr x _ rfl rfl
          · rfl))

theorem C9_selection_survives_restyle_witness :
    (∀ i ∈ selectedAnnIds [⟨.SHAPE, "S1", true⟩, ⟨.TEXT, "T1", true⟩],
      i ≠ "") ∧
      selectedAnnIds [⟨.SHAPE, "S1", true⟩, ⟨.TEXT, "T1", true⟩] ⊆
        drawnIdSet demoSet ∧
      selectedAnnIds (update_selected_stroke_width 4
          ⟨demoSet, [⟨.SHAPE, "S1", true⟩, ⟨.TEXT, "T1", true⟩]⟩).items =
        selectedAnnIds [⟨.SHAPE, "S1", true⟩, ⟨.TEXT, "T1", true⟩] :=
  ⟨by decide, by decide,
   (C9_selection_survives_restyle
      ⟨demoSet, [⟨.SHAPE, "S1", true⟩, ⟨.TEXT, "T1", true⟩]⟩ 4
      "Blue" "Green" "Black" (some "White") 20
      (by decide) (by decide)).1⟩
